import Mathlib

/-!
Shallow embedding of the invoice data model and reconciliation logic of
`src/introduction_pdf.py`, together with models of the PDF text-extraction
utility and the line-totals tool. Python floats on invoice amounts are
embedded as exact rationals; Python dicts with string keys as association
lists in insertion order with overwrite-on-existing-key semantics.
-/

/-- Header information from the invoice (class InvoiceHeader). -/
structure InvoiceHeader where
  company_name : String
  company_address : String
  customer_name : String
  customer_address : String
  invoice_number : String
  invoice_date : String
  customer_number : String
deriving Repr, DecidableEq

/-- Individual line item from the invoice (class LineItem). -/
structure LineItem where
  service_description : String
  amount_without_vat : ℚ
  quantity : Int
  total_amount : ℚ
deriving Repr, DecidableEq

/-- Summary totals from the invoice (class InvoiceSummary). -/
structure InvoiceSummary where
  subtotal : ℚ
  vat_rate : ℚ
  vat_amount : ℚ
  gross_total : ℚ
deriving Repr, DecidableEq

/-- Complete structured invoice data (class StructuredInvoice). -/
structure StructuredInvoice where
  header : InvoiceHeader
  line_items : List LineItem
  summary : InvoiceSummary
deriving Repr, DecidableEq

/-- The fixed-shape dict returned by `validate_calculations`: three booleans,
three computed values and three stated values. -/
structure ValidationResult where
  subtotal_correct : Bool
  vat_correct : Bool
  total_correct : Bool
  calculated_subtotal : ℚ
  calculated_vat : ℚ
  calculated_total : ℚ
  stated_subtotal : ℚ
  stated_vat : ℚ
  stated_total : ℚ
deriving Repr, DecidableEq

/-- Embedding of `validate_calculations` (src/introduction_pdf.py lines 292-313):
sums the line-item totals, computes VAT from the stated rate, compares each
computed value with the stated one within the fixed tolerance 0.01. -/
def validate_calculations (invoice_data : StructuredInvoice) : ValidationResult :=
  let calculated_subtotal : ℚ :=
    (invoice_data.line_items.map (fun item => item.total_amount)).sum
  let calculated_vat : ℚ := calculated_subtotal * (invoice_data.summary.vat_rate / 100)
  let calculated_total : ℚ := calculated_subtotal + calculated_vat
  { subtotal_correct :=
      decide (|calculated_subtotal - invoice_data.summary.subtotal| < (0.01 : ℚ))
    vat_correct :=
      decide (|calculated_vat - invoice_data.summary.vat_amount| < (0.01 : ℚ))
    total_correct :=
      decide (|calculated_total - invoice_data.summary.gross_total| < (0.01 : ℚ))
    calculated_subtotal := calculated_subtotal
    calculated_vat := calculated_vat
    calculated_total := calculated_total
    stated_subtotal := invoice_data.summary.subtotal
    stated_vat := invoice_data.summary.vat_amount
    stated_total := invoice_data.summary.gross_total }

/-- Embedding of `extract_pdf_text` (src/introduction_pdf.py lines 30-40).
The I/O effect of opening and parsing the PDF is reified as an argument:
`Except.ok pages` is a successful read yielding the per-page extracted text,
`Except.error e` is any exception raised while opening or parsing, carrying
its message. The function concatenates each page's text plus a newline, and
on an exception returns the error-describing string instead of re-raising. -/
def extract_pdf_text (outcome : Except String (List String)) : String :=
  match outcome with
  | Except.ok pages => pages.foldl (fun text page => text ++ (page ++ "\n")) ""
  | Except.error e => "Error reading PDF: " ++ e

/-- Python-dict assignment `d[k] = v` on a string-keyed dict, modelled on an
association list in insertion order: an existing key keeps its position and
gets the new value, a new key is appended at the end. -/
def dictInsert (d : List (String × ℚ)) (k : String) (v : ℚ) : List (String × ℚ) :=
  if d.any (fun p => p.1 == k) then d.map (fun p => if p.1 == k then (k, v) else p)
  else d ++ [(k, v)]

/-- The key fragment `item.service_description[:30].replace(" ", "_")` from
`calculate_line_totals`. -/
def service_key (item : LineItem) : String :=
  (item.service_description.take 30).replace " " "_"

/-- The dict key built by the f-string in `calculate_line_totals` for the
line item at 0-based index `i`. -/
def line_key (i : Nat) (item : LineItem) : String :=
  "line_" ++ Nat.repr (i + 1) ++ "_" ++ service_key item

/-- Embedding of `calculate_line_totals` (src/introduction_pdf.py lines
258-267): one dict entry per enumerated line item, then a "subtotal" entry
holding the sum of the line totals. -/
def calculate_line_totals (line_items : List LineItem) : List (String × ℚ) :=
  let totals := line_items.enum.foldl
    (fun d p => dictInsert d (line_key p.1 p.2) p.2.total_amount) []
  dictInsert totals "subtotal" ((line_items.map (fun item => item.total_amount)).sum)

/-- A field of an invoice summary as delivered by the upstream extraction
layer, before schema validation: absent, present but not a number, or a
number. -/
inductive RawField where
  | missing : RawField
  | text : String → RawField
  | num : ℚ → RawField
deriving Repr, DecidableEq

/-- The numeric content of a raw field, if any. -/
def RawField.toNum : RawField → Option ℚ
  | RawField.num q => some q
  | _ => none

/-- An invoice summary before schema validation: each required numeric field
may be missing or non-numeric. -/
structure RawInvoiceSummary where
  subtotal : RawField
  vat_rate : RawField
  vat_amount : RawField
  gross_total : RawField
deriving Repr, DecidableEq

/-- Error raised when required numeric fields for reconciliation are missing
or non-numeric. -/
inductive InvoiceError where
  | MalformedInvoice : String → InvoiceError
deriving Repr, DecidableEq

/-- Modelled from the spec: the schema layer that rejects malformed upstream
output before the Reconciliation Checker runs is not in src/ (the source's
StructuredInvoice declares every summary field as a required float, so the
schema library rejects missing or non-numeric fields at construction); the
spec maps that rejection to a MalformedInvoice error surfaced to the caller.
When all four required numeric fields are present and numeric, this reduces
to `validate_calculations` on the resulting StructuredInvoice. -/
def validate_checked (header : InvoiceHeader) (line_items : List LineItem)
    (raw : RawInvoiceSummary) : Except InvoiceError ValidationResult :=
  match raw.subtotal.toNum, raw.vat_rate.toNum, raw.vat_amount.toNum, raw.gross_total.toNum with
  | some s, some r, some v, some g =>
      Except.ok (validate_calculations
        { header := header, line_items := line_items,
          summary := { subtotal := s, vat_rate := r, vat_amount := v, gross_total := g } })
  | _, _, _, _ =>
      Except.error (InvoiceError.MalformedInvoice
        "required numeric field missing or non-numeric")

/-! ### Decimal representation helpers

`line_key` embeds a decimal numeral between two `'_'` separators; to reason
about key collisions we characterise `Nat.repr` as a list of digit
characters and show the numeral can be recovered from the key. -/

/-- The decimal digit characters of `n`, most significant first; shown below
to agree with `Nat.repr`. -/
def decDigits (n : Nat) : List Char :=
  if n < 10 then [Nat.digitChar n]
  else decDigits (n / 10) ++ [Nat.digitChar (n % 10)]
termination_by n
decreasing_by omega

/-- The number denoted by a list of decimal digit characters. -/
def digitsVal (l : List Char) : Nat :=
  l.foldl (fun a c => 10 * a + (c.toNat - 48)) 0

lemma digitChar_isDigit {m : Nat} (h : m < 10) : (Nat.digitChar m).isDigit = true := by
  interval_cases m <;> decide

lemma digitChar_toNat {m : Nat} (h : m < 10) : (Nat.digitChar m).toNat = m + 48 := by
  interval_cases m <;> decide

lemma decDigits_isDigit (n : Nat) : ∀ c ∈ decDigits n, c.isDigit = true := by
  induction n using Nat.strong_induction_on with
  | _ n ih =>
    intro c hc
    rw [decDigits] at hc
    by_cases h : n < 10
    · rw [if_pos h] at hc
      rcases List.mem_singleton.mp hc with rfl
      exact digitChar_isDigit h
    · rw [if_neg h] at hc
      rcases List.mem_append.mp hc with h1 | h1
      · exact ih (n / 10) (by omega) c h1
      · rcases List.mem_singleton.mp h1 with rfl
        exact digitChar_isDigit (by omega)

lemma digitsVal_decDigits (n : Nat) : digitsVal (decDigits n) = n := by
  induction n using Nat.strong_induction_on with
  | _ n ih =>
    rw [decDigits]
    by_cases h : n < 10
    · rw [if_pos h]
      simp only [digitsVal, List.foldl_cons, List.foldl_nil]
      rw [digitChar_toNat h]
      omega
    · rw [if_neg h]
      simp only [digitsVal, List.foldl_append, List.foldl_cons, List.foldl_nil]
      have hv := ih (n / 10) (by omega)
      simp only [digitsVal] at hv
      rw [hv, digitChar_toNat (by omega : n % 10 < 10)]
      omega

lemma decDigits_inj {m n : Nat} (h : decDigits m = decDigits n) : m = n := by
  have := congrArg digitsVal h
  rwa [digitsVal_decDigits, digitsVal_decDigits] at this

lemma toDigitsCore_eq_decDigits :
    ∀ (f n : Nat) (acc : List Char), n < f →
      Nat.toDigitsCore 10 f n acc = decDigits n ++ acc := by
  intro f
  induction f with
  | zero => intro n acc h; omega
  | succ f ih =>
    intro n acc h
    show (if n / 10 = 0 then Nat.digitChar (n % 10) :: acc
          else Nat.toDigitsCore 10 f (n / 10) (Nat.digitChar (n % 10) :: acc)) = _
    by_cases h10 : n / 10 = 0
    · rw [if_pos h10, decDigits, if_pos (by omega : n < 10)]
      have hm : n % 10 = n := by omega
      rw [hm]
      rfl
    · rw [if_neg h10, ih (n / 10) _ (by omega)]
      have hdn : decDigits n = decDigits (n / 10) ++ [Nat.digitChar (n % 10)] := by
        rw [decDigits, if_neg (by omega : ¬ n < 10)]
      rw [hdn]
      simp

lemma repr_data (n : Nat) : (Nat.repr n).data = decDigits n := by
  show ((Nat.toDigits 10 n).asString).data = decDigits n
  have : Nat.toDigits 10 n = decDigits n ++ [] :=
    toDigitsCore_eq_decDigits (n + 1) n [] (Nat.lt_succ_self n)
  rw [List.append_nil] at this
  rw [show ((Nat.toDigits 10 n).asString).data = Nat.toDigits 10 n from rfl, this]

/-- Two digit runs followed by the same non-digit separator and arbitrary
tails can be cancelled: the runs and the tails agree separately. -/
lemma digit_sep_cancel :
    ∀ (d1 : List Char) (d2 : List Char) (r1 r2 : List Char),
      (∀ c ∈ d1, c.isDigit = true) → (∀ c ∈ d2, c.isDigit = true) →
      d1 ++ '_' :: r1 = d2 ++ '_' :: r2 → d1 = d2 ∧ r1 = r2 := by
  intro d1
  induction d1 with
  | nil =>
    intro d2 r1 r2 _ hd2 h
    cases d2 with
    | nil => simpa using h
    | cons c t =>
      exfalso
      simp only [List.nil_append, List.cons_append, List.cons.injEq] at h
      have : c.isDigit = true := hd2 c (List.mem_cons_self _ _)
      rw [← h.1] at this
      exact absurd this (by decide)
  | cons a t1 ih =>
    intro d2 r1 r2 hd1 hd2 h
    cases d2 with
    | nil =>
      exfalso
      simp only [List.cons_append, List.nil_append, List.cons.injEq] at h
      have : a.isDigit = true := hd1 a (List.mem_cons_self _ _)
      rw [h.1] at this
      exact absurd this (by decide)
    | cons c t2 =>
      simp only [List.cons_append, List.cons.injEq] at h
      obtain ⟨rfl, h2⟩ := h
      obtain ⟨he, hr⟩ := ih t2 r1 r2 (fun x hx => hd1 x (List.mem_cons_of_mem _ hx))
        (fun x hx => hd2 x (List.mem_cons_of_mem _ hx)) h2
      exact ⟨by rw [he], hr⟩

lemma string_data_append (a b : String) : (a ++ b).data = a.data ++ b.data := rfl

lemma line_key_data (i : Nat) (a : LineItem) :
    (line_key i a).data =
      'l' :: 'i' :: 'n' :: 'e' :: '_' ::
        (decDigits (i + 1) ++ '_' :: (service_key a).data) := by
  show (("line_" ++ Nat.repr (i + 1) ++ "_") ++ service_key a).data = _
  rw [string_data_append, string_data_append, string_data_append, repr_data]
  rw [show ("line_" : String).data = ['l', 'i', 'n', 'e', '_'] from rfl,
    show ("_" : String).data = ['_'] from rfl]
  simp

lemma line_key_inj {i j : Nat} {a b : LineItem}
    (h : line_key i a = line_key j b) : i = j := by
  have hd := congrArg String.data h
  rw [line_key_data, line_key_data] at hd
  simp only [List.cons.injEq, true_and] at hd
  have := digit_sep_cancel (decDigits (i + 1)) (decDigits (j + 1))
    ((service_key a).data) ((service_key b).data)
    (decDigits_isDigit (i + 1)) (decDigits_isDigit (j + 1)) hd
  have := decDigits_inj this.1
  omega

lemma line_key_ne_subtotal (i : Nat) (a : LineItem) : line_key i a ≠ "subtotal" := by
  intro h
  have hd := congrArg String.data h
  rw [line_key_data, show ("subtotal" : String).data = ['s', 'u', 'b', 't', 'o', 't', 'a', 'l']
    from rfl] at hd
  simp at hd

lemma dictInsert_fresh (d : List (String × ℚ)) (k : String) (v : ℚ)
    (h : ∀ p ∈ d, p.1 ≠ k) : dictInsert d k v = d ++ [(k, v)] := by
  unfold dictInsert
  rw [if_neg]
  intro hc
  rw [List.any_eq_true] at hc
  obtain ⟨p, hp, he⟩ := hc
  exact h p hp (by simpa using he)

/-- Folding Python-dict insertion over line items whose keys are fresh and
pairwise distinct just appends the corresponding entries in order. -/
lemma foldl_dictInsert_line_items :
    ∀ (l : List (Nat × LineItem)) (d : List (String × ℚ)),
      (∀ q ∈ l, ∀ p ∈ d, p.1 ≠ line_key q.1 q.2) →
      (l.map (fun p => line_key p.1 p.2)).Nodup →
      l.foldl (fun d p => dictInsert d (line_key p.1 p.2) p.2.total_amount) d
        = d ++ l.map (fun p => (line_key p.1 p.2, p.2.total_amount)) := by
  intro l
  induction l with
  | nil => intro d _ _; simp
  | cons q l ih =>
    intro d hfresh hnd
    simp only [List.foldl_cons]
    rw [dictInsert_fresh d _ _
      (fun p hp => hfresh q (List.mem_cons_self _ _) p hp)]
    simp only [List.map_cons, List.nodup_cons] at hnd
    rw [ih (d ++ [(line_key q.1 q.2, q.2.total_amount)]) ?fresh hnd.2]
    · simp
    case fresh =>
      intro q' hq' p hp
      rcases List.mem_append.mp hp with hp1 | hp1
      · exact hfresh q' (List.mem_cons_of_mem _ hq') p hp1
      · rcases List.mem_singleton.mp hp1 with rfl
        intro hcontra
        apply hnd.1
        have : line_key q.1 q.2 = line_key q'.1 q'.2 := hcontra
        rw [this]
        exact List.mem_map_of_mem (fun p => line_key p.1 p.2) hq'

lemma enum_line_keys_nodup (items : List LineItem) :
    (items.enum.map (fun p => line_key p.1 p.2)).Nodup := by
  have h1 : (items.enum.map Prod.fst).Nodup := List.nodup_enum_map_fst items
  rw [List.Nodup, List.pairwise_map] at h1 ⊢
  exact h1.imp (fun h hk => h (line_key_inj hk))

/-- Characterisation of `calculate_line_totals`: the dict holds exactly one
entry per line item, in order, keyed by `line_key`, plus the final
"subtotal" entry. -/
lemma calculate_line_totals_eq (items : List LineItem) :
    calculate_line_totals items =
      items.enum.map (fun p => (line_key p.1 p.2, p.2.total_amount))
        ++ [("subtotal", (items.map (fun item => item.total_amount)).sum)] := by
  unfold calculate_line_totals
  rw [foldl_dictInsert_line_items items.enum []
    (fun q _ p hp => absurd hp (List.not_mem_nil p))
    (enum_line_keys_nodup items)]
  rw [List.nil_append]
  rw [dictInsert_fresh]
  intro p hp
  rcases List.mem_map.mp hp with ⟨q, _, rfl⟩
  exact line_key_ne_subtotal q.1 q.2

/-! ### Concrete invoices used in the theorems -/

/-- A fixed header; the reconciliation logic never inspects it. -/
def sampleHeader : InvoiceHeader :=
  { company_name := "CPB Software (Germany) GmbH"
    company_address := "Im Bruch 3, 63897 Miltenberg"
    customer_name := "Musterkunde AG"
    customer_address := "Mr. John Doe, Musterstr. 23, 12345 Musterstadt"
    invoice_number := "123100401"
    invoice_date := "2024-03-01"
    customer_number := "12345" }

/-- Spec Example 1: line items totaling 100.00, rate 20, consistent summary. -/
def invoiceEx1 : StructuredInvoice :=
  { header := sampleHeader
    line_items := [{ service_description := "Basic fee", amount_without_vat := 100,
                     quantity := 1, total_amount := 100 }]
    summary := { subtotal := 100, vat_rate := 20, vat_amount := 20, gross_total := 120 } }

/-- Stated subtotal off by exactly 0.01 from the computed one. -/
def invDiffExact : StructuredInvoice :=
  { header := sampleHeader
    line_items := [{ service_description := "Basic fee", amount_without_vat := 100,
                     quantity := 1, total_amount := 100 }]
    summary := { subtotal := 100.01, vat_rate := 20, vat_amount := 20, gross_total := 120 } }

/-- Stated subtotal off by 0.0099 from the computed one. -/
def invDiffNear : StructuredInvoice :=
  { header := sampleHeader
    line_items := [{ service_description := "Basic fee", amount_without_vat := 100,
                     quantity := 1, total_amount := 100 }]
    summary := { subtotal := 100.0099, vat_rate := 20, vat_amount := 20, gross_total := 120 } }

/-- Zero tax rate, items totaling 50.00, stated tax 0.00 and gross total
50.00, but stated subtotal 100.00: meets the stated premises of the
zero-rate claim yet its subtotal check and total check disagree. -/
def invC5bad : StructuredInvoice :=
  { header := sampleHeader
    line_items := [{ service_description := "Basic fee", amount_without_vat := 50,
                     quantity := 1, total_amount := 50 }]
    summary := { subtotal := 100, vat_rate := 0, vat_amount := 0, gross_total := 50 } }

/-- Spec Example 3 with the stated subtotal made explicit: zero rate, items
totaling 50.00, stated subtotal 50.00, tax 0.00, gross total 50.00. -/
def invC5good : StructuredInvoice :=
  { header := sampleHeader
    line_items := [{ service_description := "Basic fee", amount_without_vat := 50,
                     quantity := 1, total_amount := 50 }]
    summary := { subtotal := 50, vat_rate := 0, vat_amount := 0, gross_total := 50 } }

/-- An invoice with no line items and stated subtotal 0. -/
def invEmpty : StructuredInvoice :=
  { header := sampleHeader
    line_items := []
    summary := { subtotal := 0, vat_rate := 19, vat_amount := 0, gross_total := 0 } }

/-- A raw summary whose tax-rate field is absent. -/
def rawMissingVat : RawInvoiceSummary :=
  { subtotal := RawField.num 100, vat_rate := RawField.missing,
    vat_amount := RawField.num 19, gross_total := RawField.num 119 }

/-- First of two invoices agreeing on line-item totals and summary but
differing in header, descriptions, quantities and net amounts (one quantity
is zero). -/
def invWitA : StructuredInvoice :=
  { header := sampleHeader
    line_items := [{ service_description := "Basic fee", amount_without_vat := 10,
                     quantity := 0, total_amount := 25 },
                   { service_description := "Transaction fee T1", amount_without_vat := 5,
                     quantity := 5, total_amount := 25 }]
    summary := { subtotal := 50, vat_rate := 20, vat_amount := 10, gross_total := 60 } }

/-- Second invoice of the pair: same per-item totals and summary, everything
else different. -/
def invWitB : StructuredInvoice :=
  { header := { company_name := "Other Corp", company_address := "Elsewhere 1",
                customer_name := "Someone", customer_address := "Nowhere 2",
                invoice_number := "999", invoice_date := "2023-01-01",
                customer_number := "42" }
    line_items := [{ service_description := "Other service", amount_without_vat := 99,
                     quantity := 1, total_amount := 25 },
                   { service_description := "Transaction fee T3", amount_without_vat := 1,
                     quantity := 2, total_amount := 25 }]
    summary := { subtotal := 50, vat_rate := 20, vat_amount := 10, gross_total := 60 } }

/-! ### Claim theorems -/

/-- C1: for every StructuredInvoice, `validate_calculations` computes the
subtotal as the sum of the line-item totals, the tax as subtotal times
(rate / 100), the total as subtotal plus tax, and returns the three
correctness booleans (each the tolerance comparison of computed against
stated) together with the three computed and three stated summary values. -/
theorem C1_validate_structure (inv : StructuredInvoice) :
    (validate_calculations inv).calculated_subtotal
        = (inv.line_items.map (fun item => item.total_amount)).sum
    ∧ (validate_calculations inv).calculated_vat
        = (validate_calculations inv).calculated_subtotal * (inv.summary.vat_rate / 100)
    ∧ (validate_calculations inv).calculated_total
        = (validate_calculations inv).calculated_subtotal
          + (validate_calculations inv).calculated_vat
    ∧ (validate_calculations inv).stated_subtotal = inv.summary.subtotal
    ∧ (validate_calculations inv).stated_vat = inv.summary.vat_amount
    ∧ (validate_calculations inv).stated_total = inv.summary.gross_total
    ∧ (validate_calculations inv).subtotal_correct
        = decide (|(validate_calculations inv).calculated_subtotal
            - inv.summary.subtotal| < (0.01 : ℚ))
    ∧ (validate_calculations inv).vat_correct
        = decide (|(validate_calculations inv).calculated_vat
            - inv.summary.vat_amount| < (0.01 : ℚ))
    ∧ (validate_calculations inv).total_correct
        = decide (|(validate_calculations inv).calculated_total
            - inv.summary.gross_total| < (0.01 : ℚ)) :=
  ⟨rfl, rfl, rfl, rfl, rfl, rfl, rfl, rfl, rfl⟩

/-- C2: any StructuredInvoice whose stated summary satisfies the
reconciliation equations exactly gets all three booleans true. -/
theorem C2_exact_reconciliation (inv : StructuredInvoice)
    (h1 : inv.summary.subtotal = (inv.line_items.map (fun item => item.total_amount)).sum)
    (h2 : inv.summary.vat_amount = inv.summary.subtotal * (inv.summary.vat_rate / 100))
    (h3 : inv.summary.gross_total = inv.summary.subtotal + inv.summary.vat_amount) :
    (validate_calculations inv).subtotal_correct = true
    ∧ (validate_calculations inv).vat_correct = true
    ∧ (validate_calculations inv).total_correct = true := by
  refine ⟨?_, ?_, ?_⟩
  · simp only [validate_calculations, decide_eq_true_eq]
    rw [h1, sub_self, abs_zero]
    norm_num
  · simp only [validate_calculations, decide_eq_true_eq]
    rw [h2, h1, sub_self, abs_zero]
    norm_num
  · simp only [validate_calculations, decide_eq_true_eq]
    rw [h3, h2, h1, sub_self, abs_zero]
    norm_num

/-- Witness for C2 at spec Example 1. -/
theorem C2_exact_reconciliation_witness :
    (invoiceEx1.summary.subtotal
        = (invoiceEx1.line_items.map (fun item => item.total_amount)).sum
      ∧ invoiceEx1.summary.vat_amount
        = invoiceEx1.summary.subtotal * (invoiceEx1.summary.vat_rate / 100)
      ∧ invoiceEx1.summary.gross_total
        = invoiceEx1.summary.subtotal + invoiceEx1.summary.vat_amount)
    ∧ ((validate_calculations invoiceEx1).subtotal_correct = true
      ∧ (validate_calculations invoiceEx1).vat_correct = true
      ∧ (validate_calculations invoiceEx1).total_correct = true) :=
  ⟨⟨by norm_num [invoiceEx1], by norm_num [invoiceEx1], by norm_num [invoiceEx1]⟩,
    C2_exact_reconciliation invoiceEx1 (by norm_num [invoiceEx1])
      (by norm_num [invoiceEx1]) (by norm_num [invoiceEx1])⟩

/-- C3: each comparison passes iff the absolute difference is strictly below
0.01; a difference of exactly 0.01 fails and one of 0.0099 passes. -/
theorem C3_tolerance_boundary :
    (∀ inv : StructuredInvoice,
      ((validate_calculations inv).subtotal_correct = true ↔
        |(validate_calculations inv).calculated_subtotal - inv.summary.subtotal| < (0.01 : ℚ))
      ∧ ((validate_calculations inv).vat_correct = true ↔
        |(validate_calculations inv).calculated_vat - inv.summary.vat_amount| < (0.01 : ℚ))
      ∧ ((validate_calculations inv).total_correct = true ↔
        |(validate_calculations inv).calculated_total - inv.summary.gross_total| < (0.01 : ℚ)))
    ∧ (|(validate_calculations invDiffExact).calculated_subtotal
          - invDiffExact.summary.subtotal| = (0.01 : ℚ)
      ∧ (validate_calculations invDiffExact).subtotal_correct = false)
    ∧ (|(validate_calculations invDiffNear).calculated_subtotal
          - invDiffNear.summary.subtotal| = (0.0099 : ℚ)
      ∧ (validate_calculations invDiffNear).subtotal_correct = true) := by
  refine ⟨fun inv => ?_, ⟨?_, ?_⟩, ⟨?_, ?_⟩⟩
  · simp only [validate_calculations, decide_eq_true_eq]
    exact ⟨trivial, trivial, trivial⟩
  · have h : (validate_calculations invDiffExact).calculated_subtotal
        - invDiffExact.summary.subtotal = -(0.01 : ℚ) := by
      simp only [validate_calculations, invDiffExact]
      norm_num
    rw [h, abs_neg, abs_of_pos (by norm_num : (0 : ℚ) < 0.01)]
  · simp only [validate_calculations, invDiffExact, decide_eq_false_iff_not, abs_sub_lt_iff]
    norm_num
  · have h : (validate_calculations invDiffNear).calculated_subtotal
        - invDiffNear.summary.subtotal = -(0.0099 : ℚ) := by
      simp only [validate_calculations, invDiffNear]
      norm_num
    rw [h, abs_neg, abs_of_pos (by norm_num : (0 : ℚ) < 0.0099)]
  · simp only [validate_calculations, invDiffNear, decide_eq_true_eq, abs_sub_lt_iff]
    norm_num

/-- C4: if any required numeric field of the summary is missing or
non-numeric, validation surfaces a MalformedInvoice error to the caller
instead of silently defaulting the field. -/
theorem C4_malformed_surfaced (header : InvoiceHeader) (line_items : List LineItem)
    (raw : RawInvoiceSummary)
    (h : raw.subtotal.toNum = none ∨ raw.vat_rate.toNum = none
      ∨ raw.vat_amount.toNum = none ∨ raw.gross_total.toNum = none) :
    ∃ msg, validate_checked header line_items raw
      = Except.error (InvoiceError.MalformedInvoice msg) := by
  unfold validate_checked
  rcases hs : raw.subtotal.toNum with _ | s <;>
    rcases hr : raw.vat_rate.toNum with _ | r <;>
      rcases hv : raw.vat_amount.toNum with _ | v <;>
        rcases hg : raw.gross_total.toNum with _ | g <;>
          simp_all

/-- Witness for C4: a summary whose tax-rate field is absent. -/
theorem C4_malformed_surfaced_witness :
    (rawMissingVat.subtotal.toNum = none ∨ rawMissingVat.vat_rate.toNum = none
      ∨ rawMissingVat.vat_amount.toNum = none ∨ rawMissingVat.gross_total.toNum = none)
    ∧ ∃ msg, validate_checked sampleHeader [] rawMissingVat
        = Except.error (InvoiceError.MalformedInvoice msg) :=
  ⟨Or.inr (Or.inl rfl),
    C4_malformed_surfaced sampleHeader [] rawMissingVat (Or.inr (Or.inl rfl))⟩

/-- C5 counterexample: a zero-rate invoice with line items totaling 50.00,
stated tax 0.00 and stated gross total 50.00 whose stated subtotal is
100.00: its subtotal check is false while its total check is true, so the
two checks are not equivalent and the three booleans are not all true. -/
theorem C5_counterexample :
    invC5bad.summary.vat_rate = 0
    ∧ (invC5bad.line_items.map (fun item => item.total_amount)).sum = 50
    ∧ invC5bad.summary.vat_amount = 0
    ∧ invC5bad.summary.gross_total = 50
    ∧ (validate_calculations invC5bad).subtotal_correct = false
    ∧ (validate_calculations invC5bad).total_correct = true := by
  refine ⟨rfl, by norm_num [invC5bad], rfl, rfl, ?_, ?_⟩
  · simp only [validate_calculations, invC5bad, decide_eq_false_iff_not, abs_sub_lt_iff]
    norm_num
  · simp only [validate_calculations, invC5bad, decide_eq_true_eq, abs_sub_lt_iff]
    norm_num

/-- C5 amended: with a zero tax rate the computed tax is 0 and the total
check becomes the subtotal-style tolerance comparison of the computed
subtotal against the stated gross total; it coincides with the subtotal
check whenever the stated subtotal equals the stated gross total. With line
items totaling 50.00 and a stated subtotal, tax and gross total of 50.00,
0.00 and 50.00, all three booleans are true. -/
theorem C5_zero_rate :
    (∀ inv : StructuredInvoice, inv.summary.vat_rate = 0 →
      (validate_calculations inv).calculated_vat = 0
      ∧ ((validate_calculations inv).total_correct = true ↔
          |(validate_calculations inv).calculated_subtotal
            - inv.summary.gross_total| < (0.01 : ℚ))
      ∧ (inv.summary.subtotal = inv.summary.gross_total →
          (validate_calculations inv).total_correct
            = (validate_calculations inv).subtotal_correct))
    ∧ ((validate_calculations invC5good).subtotal_correct = true
      ∧ (validate_calculations invC5good).vat_correct = true
      ∧ (validate_calculations invC5good).total_correct = true) := by
  constructor
  · intro inv h
    refine ⟨?_, ?_, ?_⟩
    · simp only [validate_calculations]
      rw [h]
      simp
    · simp only [validate_calculations, decide_eq_true_eq]
      rw [h]
      rw [zero_div, mul_zero, add_zero]
    · intro h2
      simp only [validate_calculations]
      rw [h, h2, zero_div, mul_zero, add_zero]
  · refine ⟨?_, ?_, ?_⟩ <;>
      · simp only [validate_calculations, invC5good, decide_eq_true_eq, abs_sub_lt_iff]
        norm_num

/-- Witness for C5 at the explicit zero-rate invoice. -/
theorem C5_zero_rate_witness :
    invC5good.summary.vat_rate = 0
    ∧ ((validate_calculations invC5good).calculated_vat = 0
      ∧ ((validate_calculations invC5good).total_correct = true ↔
          |(validate_calculations invC5good).calculated_subtotal
            - invC5good.summary.gross_total| < (0.01 : ℚ))
      ∧ (invC5good.summary.subtotal = invC5good.summary.gross_total →
          (validate_calculations invC5good).total_correct
            = (validate_calculations invC5good).subtotal_correct)) :=
  ⟨rfl, C5_zero_rate.1 invC5good rfl⟩

/-- C6: with an empty line-item sequence the computed subtotal is 0, and if
the stated subtotal is 0 the subtotal check passes. -/
theorem C6_empty_items (inv : StructuredInvoice) (h : inv.line_items = []) :
    (validate_calculations inv).calculated_subtotal = 0
    ∧ (inv.summary.subtotal = 0 → (validate_calculations inv).subtotal_correct = true) := by
  simp only [validate_calculations]
  rw [h]
  constructor
  · simp
  · intro h2
    rw [h2]
    simp only [List.map_nil, List.sum_nil, sub_zero, abs_zero, decide_eq_true_eq]
    norm_num

/-- Witness for C6 at a concrete empty invoice. -/
theorem C6_empty_items_witness :
    invEmpty.line_items = []
    ∧ ((validate_calculations invEmpty).calculated_subtotal = 0
      ∧ (invEmpty.summary.subtotal = 0 →
          (validate_calculations invEmpty).subtotal_correct = true)) :=
  ⟨rfl, C6_empty_items invEmpty rfl⟩

/-- C7: validation is a pure, deterministic function of its input — two
calls on the same invoice agree — and on fully populated input the checked
entry point never reaches the error path: it totals to an ok result whose
value is the pure validation of the populated invoice. -/
theorem C7_pure_total :
    (∀ inv : StructuredInvoice, validate_calculations inv = validate_calculations inv)
    ∧ (∀ (header : InvoiceHeader) (line_items : List LineItem) (s r v g : ℚ),
        validate_checked header line_items
          { subtotal := RawField.num s, vat_rate := RawField.num r,
            vat_amount := RawField.num v, gross_total := RawField.num g }
          = Except.ok (validate_calculations
              { header := header, line_items := line_items,
                summary := { subtotal := s, vat_rate := r,
                             vat_amount := v, gross_total := g } })) :=
  ⟨fun _ => rfl, fun _ _ _ _ _ _ => rfl⟩

/-- C8: the text-extraction utility always returns a string: on a successful
read it returns the concatenation of the page texts each followed by a
newline, and on any I/O or parse failure it returns the error-describing
string rather than propagating the exception. -/
theorem C8_extract_contract :
    (∀ e : String, extract_pdf_text (Except.error e) = "Error reading PDF: " ++ e)
    ∧ (∀ pages : List String,
        extract_pdf_text (Except.ok pages)
          = String.join (pages.map (fun page => page ++ "\n"))) := by
  constructor
  · intro e
    rfl
  · intro pages
    show pages.foldl (fun text page => text ++ (page ++ "\n")) "" = _
    simp only [String.join]
    rw [List.foldl_map]

/-- C9: the validation result depends only on the sequence of line-item
totals and the summary; headers, descriptions, quantities and net amounts
are irrelevant. -/
theorem C9_noninterference (i1 i2 : StructuredInvoice)
    (hitems : i1.line_items.map (fun item => item.total_amount)
      = i2.line_items.map (fun item => item.total_amount))
    (hsum : i1.summary = i2.summary) :
    validate_calculations i1 = validate_calculations i2 := by
  simp only [validate_calculations]
  rw [hitems, hsum]

/-- Witness for C9: two invoices differing in header, descriptions,
quantities (one zero) and net amounts but agreeing on per-item totals and
summary validate identically. -/
theorem C9_noninterference_witness :
    (invWitA.line_items.map (fun item => item.total_amount)
      = invWitB.line_items.map (fun item => item.total_amount))
    ∧ invWitA.summary = invWitB.summary
    ∧ validate_calculations invWitA = validate_calculations invWitB :=
  ⟨rfl, rfl, C9_noninterference invWitA invWitB rfl rfl⟩

/-- C10: the line-totals tool returns one entry per line item, in order,
keyed by the 1-based position and the underscored 30-character description
prefix and valued by that item's total, followed by a "subtotal" entry whose
value is the sum of the totals — hence exactly one entry per item plus one. -/
theorem C10_line_totals (items : List LineItem) :
    calculate_line_totals items =
      items.enum.map (fun p => (line_key p.1 p.2, p.2.total_amount))
        ++ [("subtotal", (items.map (fun item => item.total_amount)).sum)]
    ∧ (calculate_line_totals items).length = items.length + 1 := by
  refine ⟨calculate_line_totals_eq items, ?_⟩
  rw [calculate_line_totals_eq items]
  simp [List.enum_length]
